import Mathlib

/-!
Shallow embedding of the motor-control and JY61P sensor application layers
of the `project_1` firmware repository.

The motor stack (`src/hardware/motor_drivers/tb6612fng/tb6612fng.c`,
`src/app/motor_control_app.c`) is embedded as pure state-passing functions
over explicit driver/application state, parametrised by an abstract port
behaviour (the `motor_port_*` functions implemented by the platform layer).
Each operation returns its C return value, the successor state and the list
of port-layer calls it issued, in order.

The JY61P scan (`src/app/jy61p_app.c`) is embedded the same way; the vendor
WIT SDK is abstracted as an environment `responds : Nat → Bool` saying which
bus addresses answer a probe read, with the repository's own register-update
callback `jy61p_sensor_data_process` embedded faithfully.
-/

/-! ### TB6612FNG driver layer (`tb6612fng.c` / `tb6612fng.h`) -/

/-- Embedding of `tb6612_direction_t` from `tb6612fng.h`. -/
inductive Tb6612Direction
  | stop
  | forward
  | backward
  | brake
deriving DecidableEq, Repr

/-- Embedding of `tb6612_motor_t` from `tb6612fng.h` (the `TB6612_MOTOR_MAX` bound is the
cardinality of this type). -/
inductive Tb6612Motor
  | A
  | B
deriving DecidableEq, Repr

/-- Embedding of `tb6612_error_t` from `tb6612fng.h` (only the codes the embedded
functions can produce). -/
inductive Tb6612Error
  | ok
  | invalidParam
  | notInit
  | hardwareFault
deriving DecidableEq, Repr

/-- Embedding of `tb6612_state_t` from `tb6612fng.h`. -/
inductive Tb6612State
  | idle
  | running
  | braking
  | fault
deriving DecidableEq, Repr

/-- Embedding of `tb6612_config_t` from `tb6612fng.h`. -/
structure Tb6612Config where
  pwm_frequency : Nat
  pwm_resolution : Nat
  max_duty_cycle : Nat
  min_duty_cycle : Nat
deriving DecidableEq, Repr

/-- Embedding of `tb6612_set_default_config` in `tb6612fng.c` (the app always passes a
NULL config, so `tb6612_init` always installs these defaults). -/
def tb6612_default_config : Tb6612Config :=
  { pwm_frequency := 10000, pwm_resolution := 10, max_duty_cycle := 95, min_duty_cycle := 5 }

/-- Embedding of `tb6612_motor_status_t` from `tb6612fng.h`. -/
structure Tb6612MotorStatus where
  direction : Tb6612Direction
  state : Tb6612State
  speed_percent : Nat
deriving DecidableEq, Repr

/-- Embedding of `tb6612_driver_t` from `tb6612fng.h`; the `motor_status` array is split
into its two entries. -/
structure Tb6612Driver where
  initialized : Bool
  config : Tb6612Config
  statusA : Tb6612MotorStatus
  statusB : Tb6612MotorStatus
deriving DecidableEq, Repr

/-- One call into the platform port layer (`motor_port_*` functions). -/
inductive PortCall
  | initCall
  | setDir (m : Tb6612Motor) (d : Tb6612Direction)
  | setSpeed (m : Tb6612Motor) (s : Nat)
deriving DecidableEq, Repr

/-- Abstract behaviour of the platform port layer: the error code each
`motor_port_*` call returns. -/
structure MotorPort where
  initResult : Tb6612Error
  setDirResult : Tb6612Motor → Tb6612Direction → Tb6612Error
  setSpeedResult : Tb6612Motor → Nat → Tb6612Error

/-- A port on which every hardware call succeeds. -/
def okPort : MotorPort :=
  { initResult := Tb6612Error.ok
    setDirResult := fun _ _ => Tb6612Error.ok
    setSpeedResult := fun _ _ => Tb6612Error.ok }

/-- Read the per-motor status entry (`g_tb6612_driver.motor_status[motor]`). -/
def Tb6612Driver.getStatus (s : Tb6612Driver) : Tb6612Motor → Tb6612MotorStatus
  | Tb6612Motor.A => s.statusA
  | Tb6612Motor.B => s.statusB

/-- Write the per-motor status entry. -/
def Tb6612Driver.setStatus (s : Tb6612Driver) (m : Tb6612Motor) (e : Tb6612MotorStatus) :
    Tb6612Driver :=
  match m with
  | Tb6612Motor.A => { s with statusA := e }
  | Tb6612Motor.B => { s with statusB := e }

/-- Embedding of `tb6612_is_valid_motor` (always true on the two-element motor type). -/
def tb6612_is_valid_motor (_ : Tb6612Motor) : Bool := true

/-- Embedding of `tb6612_is_valid_direction` (always true on the direction enum). -/
def tb6612_is_valid_direction (_ : Tb6612Direction) : Bool := true

/-- Embedding of `tb6612_is_valid_speed` from `tb6612fng.c`. -/
def tb6612_is_valid_speed (speed_percent : Nat) : Bool := speed_percent ≤ 100

/-- Status update performed by `tb6612_set_direction` after the port call
succeeds (lines 162-171 of `tb6612fng.c`). -/
def tb6612_dir_update (d : Tb6612Direction) (st : Tb6612MotorStatus) : Tb6612MotorStatus :=
  if d = Tb6612Direction.stop ∨ d = Tb6612Direction.brake then
    { st with direction := d, state := Tb6612State.idle, speed_percent := 0 }
  else
    { st with direction := d, state := Tb6612State.running }

/-- Status update performed by `tb6612_set_speed` after the port call
succeeds (lines 202-210 of `tb6612fng.c`). -/
def tb6612_speed_update (sp : Nat) (st : Tb6612MotorStatus) : Tb6612MotorStatus :=
  { st with speed_percent := sp
            state := if sp = 0 then Tb6612State.idle else Tb6612State.running }

/-- Embedding of `tb6612_set_direction` from `tb6612fng.c`. -/
def tb6612_set_direction (port : MotorPort) (m : Tb6612Motor) (d : Tb6612Direction)
    (s : Tb6612Driver) : Tb6612Error × Tb6612Driver × List PortCall :=
  if s.initialized = false then (Tb6612Error.notInit, s, [])
  else if tb6612_is_valid_motor m = false then (Tb6612Error.invalidParam, s, [])
  else if tb6612_is_valid_direction d = false then (Tb6612Error.invalidParam, s, [])
  else
    let r := port.setDirResult m d
    if r ≠ Tb6612Error.ok then (r, s, [PortCall.setDir m d])
    else (Tb6612Error.ok, s.setStatus m (tb6612_dir_update d (s.getStatus m)),
          [PortCall.setDir m d])

/-- Embedding of `tb6612_set_speed` from `tb6612fng.c`. -/
def tb6612_set_speed (port : MotorPort) (m : Tb6612Motor) (sp : Nat)
    (s : Tb6612Driver) : Tb6612Error × Tb6612Driver × List PortCall :=
  if s.initialized = false then (Tb6612Error.notInit, s, [])
  else if tb6612_is_valid_motor m = false then (Tb6612Error.invalidParam, s, [])
  else if tb6612_is_valid_speed sp = false then (Tb6612Error.invalidParam, s, [])
  else
    let r := port.setSpeedResult m sp
    if r ≠ Tb6612Error.ok then (r, s, [PortCall.setSpeed m sp])
    else (Tb6612Error.ok, s.setStatus m (tb6612_speed_update sp (s.getStatus m)),
          [PortCall.setSpeed m sp])

/-- Embedding of `tb6612_stop` from `tb6612fng.c`. -/
def tb6612_stop (port : MotorPort) (m : Tb6612Motor) (s : Tb6612Driver) :
    Tb6612Error × Tb6612Driver × List PortCall :=
  tb6612_set_direction port m Tb6612Direction.stop s

/-- Embedding of `tb6612_stop_all` from `tb6612fng.c`: stops motors A then B, returning the
last non-OK error (or OK). -/
def tb6612_stop_all (port : MotorPort) (s : Tb6612Driver) :
    Tb6612Error × Tb6612Driver × List PortCall :=
  if s.initialized = false then (Tb6612Error.notInit, s, [])
  else
    let pA := tb6612_stop port Tb6612Motor.A s
    let pB := tb6612_stop port Tb6612Motor.B pA.2.1
    let ret := if pB.1 ≠ Tb6612Error.ok then pB.1
               else if pA.1 ≠ Tb6612Error.ok then pA.1
               else Tb6612Error.ok
    (ret, pB.2.1, pA.2.2 ++ pB.2.2)

/-- The driver state right after `memset` to zero plus default-config
installation and the per-motor status reset in `tb6612_init`. -/
def tb6612_reset_driver : Tb6612Driver :=
  { initialized := false, config := tb6612_default_config
    statusA := { direction := Tb6612Direction.stop, state := Tb6612State.idle, speed_percent := 0 }
    statusB := { direction := Tb6612Direction.stop, state := Tb6612State.idle, speed_percent := 0 } }

/-- Embedding of `tb6612_init` from `tb6612fng.c`, specialised to the NULL-config call the
application makes (default config installed). -/
def tb6612_init (port : MotorPort) (s : Tb6612Driver) :
    Tb6612Error × Tb6612Driver × List PortCall :=
  if s.initialized = true then (Tb6612Error.ok, s, [])
  else
    let r := port.initResult
    if r ≠ Tb6612Error.ok then (r, tb6612_reset_driver, [PortCall.initCall])
    else (Tb6612Error.ok, { tb6612_reset_driver with initialized := true }, [PortCall.initCall])

/-- Embedding of `tb6612_set_motor_pair` from `tb6612fng.c`: validates, then sets direction
of A, direction of B, speed of A, speed of B, stopping at the first error. -/
def tb6612_set_motor_pair (port : MotorPort) (sa : Nat) (da : Tb6612Direction)
    (sb : Nat) (db : Tb6612Direction) (s : Tb6612Driver) :
    Tb6612Error × Tb6612Driver × List PortCall :=
  if s.initialized = false then (Tb6612Error.notInit, s, [])
  else if tb6612_is_valid_speed sa = false ∨ tb6612_is_valid_speed sb = false then
    (Tb6612Error.invalidParam, s, [])
  else if tb6612_is_valid_direction da = false ∨ tb6612_is_valid_direction db = false then
    (Tb6612Error.invalidParam, s, [])
  else
    let p1 := tb6612_set_direction port Tb6612Motor.A da s
    if p1.1 ≠ Tb6612Error.ok then (p1.1, p1.2.1, p1.2.2)
    else
      let p2 := tb6612_set_direction port Tb6612Motor.B db p1.2.1
      if p2.1 ≠ Tb6612Error.ok then (p2.1, p2.2.1, p1.2.2 ++ p2.2.2)
      else
        let p3 := tb6612_set_speed port Tb6612Motor.A sa p2.2.1
        if p3.1 ≠ Tb6612Error.ok then (p3.1, p3.2.1, p1.2.2 ++ p2.2.2 ++ p3.2.2)
        else
          let p4 := tb6612_set_speed port Tb6612Motor.B sb p3.2.1
          if p4.1 ≠ Tb6612Error.ok then (p4.1, p4.2.1, p1.2.2 ++ p2.2.2 ++ p3.2.2 ++ p4.2.2)
          else (Tb6612Error.ok, p4.2.1, p1.2.2 ++ p2.2.2 ++ p3.2.2 ++ p4.2.2)

/-- Embedding of `tb6612_move_forward` from `tb6612fng.c`. -/
def tb6612_move_forward (port : MotorPort) (speed : Nat) (s : Tb6612Driver) :
    Tb6612Error × Tb6612Driver × List PortCall :=
  tb6612_set_motor_pair port speed Tb6612Direction.forward speed Tb6612Direction.forward s

/-- Embedding of `tb6612_move_backward` from `tb6612fng.c`. -/
def tb6612_move_backward (port : MotorPort) (speed : Nat) (s : Tb6612Driver) :
    Tb6612Error × Tb6612Driver × List PortCall :=
  tb6612_set_motor_pair port speed Tb6612Direction.backward speed Tb6612Direction.backward s

/-- Embedding of `tb6612_turn_left` from `tb6612fng.c`: left wheel stopped, right wheel
forward. -/
def tb6612_turn_left (port : MotorPort) (speed : Nat) (s : Tb6612Driver) :
    Tb6612Error × Tb6612Driver × List PortCall :=
  tb6612_set_motor_pair port 0 Tb6612Direction.stop speed Tb6612Direction.forward s

/-- Embedding of `tb6612_turn_right` from `tb6612fng.c`: left wheel forward, right wheel
stopped. -/
def tb6612_turn_right (port : MotorPort) (speed : Nat) (s : Tb6612Driver) :
    Tb6612Error × Tb6612Driver × List PortCall :=
  tb6612_set_motor_pair port speed Tb6612Direction.forward 0 Tb6612Direction.stop s

example :
    (tb6612_set_motor_pair okPort 30 Tb6612Direction.forward 40 Tb6612Direction.backward
      { tb6612_reset_driver with initialized := true }).2.2 =
    [PortCall.setDir Tb6612Motor.A Tb6612Direction.forward,
     PortCall.setDir Tb6612Motor.B Tb6612Direction.backward,
     PortCall.setSpeed Tb6612Motor.A 30,
     PortCall.setSpeed Tb6612Motor.B 40] := by decide

/-! ### Motor control application layer (`motor_control_app.c` / `.h`) -/

/-- Embedding of `motor_control_t` from `motor_control_app.h` (signed per-wheel speeds). -/
structure MotorControl where
  left_speed : Int
  right_speed : Int
deriving DecidableEq, Repr

/-- Embedding of `motor_app_status_t` from `motor_control_app.h`. -/
structure MotorAppStatus where
  initialized : Bool
  motor_a_enabled : Bool
  motor_b_enabled : Bool
  current_speed_a : Nat
  current_speed_b : Nat
  current_dir_a : Int
  current_dir_b : Int
deriving DecidableEq, Repr

/-- The zeroed `motor_app_status_t` produced by `memset(..., 0, ...)`. -/
def motor_app_status_zero : MotorAppStatus :=
  { initialized := false, motor_a_enabled := false, motor_b_enabled := false
    current_speed_a := 0, current_speed_b := 0, current_dir_a := 0, current_dir_b := 0 }

/-- Combined mutable state of the application: the retained
`g_motor_app_status` record plus the driver's `g_tb6612_driver`. -/
structure MotorWorld where
  app : MotorAppStatus
  drv : Tb6612Driver
deriving DecidableEq, Repr

/-- Embedding of `update_motor_status` from `motor_control_app.c`. -/
def update_motor_status (motor : Nat) (speed : Nat) (direction : Int)
    (s : MotorAppStatus) : MotorAppStatus :=
  if motor = 0 then { s with current_speed_a := speed, current_dir_a := direction }
  else if motor = 1 then { s with current_speed_b := speed, current_dir_b := direction }
  else s

/-- Embedding of `is_valid_speed` from `motor_control_app.c`. -/
def is_valid_speed (speed : Nat) : Bool := speed ≤ 100

/-- The sign-to-direction translation inlined in `motor_app_control_motors`
(lines 149-163 of `motor_control_app.c`). -/
def signToDir (x : Int) : Tb6612Direction :=
  if x > 0 then Tb6612Direction.forward
  else if x < 0 then Tb6612Direction.backward
  else Tb6612Direction.stop

/-- The conditional `(v > 0) ? 1 : ((v < 0) ? -1 : 0)` used for the status
update in `motor_app_control_motors` (lines 171-172). -/
def signToInt (x : Int) : Int := if x > 0 then 1 else if x < 0 then -1 else 0

/-- Embedding of `motor_app_control_motors` from `motor_control_app.c`; the `control`
pointer is `none` when NULL. -/
def motor_app_control_motors (port : MotorPort) (control : Option MotorControl)
    (w : MotorWorld) : Int × MotorWorld × List PortCall :=
  match control with
  | none => (-1, w, [])
  | some c =>
    if w.app.initialized = false then (-1, w, [])
    else
      let left_speed : Nat := c.left_speed.natAbs
      let left_dir := signToDir c.left_speed
      let right_speed : Nat := c.right_speed.natAbs
      let right_dir := signToDir c.right_speed
      let p := tb6612_set_motor_pair port left_speed left_dir right_speed right_dir w.drv
      if p.1 ≠ Tb6612Error.ok then (-1, { w with drv := p.2.1 }, p.2.2)
      else
        let app1 := update_motor_status 0 left_speed (signToInt c.left_speed) w.app
        let app2 := update_motor_status 1 right_speed (signToInt c.right_speed) app1
        (0, { app := app2, drv := p.2.1 }, p.2.2)

/-- Embedding of `motor_app_move_forward` from `motor_control_app.c`. -/
def motor_app_move_forward (port : MotorPort) (speed : Nat) (w : MotorWorld) :
    Int × MotorWorld × List PortCall :=
  if is_valid_speed speed = false then (-1, w, [])
  else if w.app.initialized = false then (-1, w, [])
  else
    let p := tb6612_move_forward port speed w.drv
    if p.1 ≠ Tb6612Error.ok then (-1, { w with drv := p.2.1 }, p.2.2)
    else
      (0, { app := update_motor_status 1 speed 1 (update_motor_status 0 speed 1 w.app)
            drv := p.2.1 }, p.2.2)

/-- Embedding of `motor_app_move_backward` from `motor_control_app.c`. -/
def motor_app_move_backward (port : MotorPort) (speed : Nat) (w : MotorWorld) :
    Int × MotorWorld × List PortCall :=
  if is_valid_speed speed = false then (-1, w, [])
  else if w.app.initialized = false then (-1, w, [])
  else
    let p := tb6612_move_backward port speed w.drv
    if p.1 ≠ Tb6612Error.ok then (-1, { w with drv := p.2.1 }, p.2.2)
    else
      (0, { app := update_motor_status 1 speed (-1) (update_motor_status 0 speed (-1) w.app)
            drv := p.2.1 }, p.2.2)

/-- Embedding of `motor_app_turn_left` from `motor_control_app.c`: calls
`tb6612_turn_left` and then records motor A as (speed, backward) and motor B
as (speed, forward) in the retained status. -/
def motor_app_turn_left (port : MotorPort) (speed : Nat) (w : MotorWorld) :
    Int × MotorWorld × List PortCall :=
  if is_valid_speed speed = false then (-1, w, [])
  else if w.app.initialized = false then (-1, w, [])
  else
    let p := tb6612_turn_left port speed w.drv
    if p.1 ≠ Tb6612Error.ok then (-1, { w with drv := p.2.1 }, p.2.2)
    else
      (0, { app := update_motor_status 1 speed 1 (update_motor_status 0 speed (-1) w.app)
            drv := p.2.1 }, p.2.2)

/-- Embedding of `motor_app_turn_right` from `motor_control_app.c`. -/
def motor_app_turn_right (port : MotorPort) (speed : Nat) (w : MotorWorld) :
    Int × MotorWorld × List PortCall :=
  if is_valid_speed speed = false then (-1, w, [])
  else if w.app.initialized = false then (-1, w, [])
  else
    let p := tb6612_turn_right port speed w.drv
    if p.1 ≠ Tb6612Error.ok then (-1, { w with drv := p.2.1 }, p.2.2)
    else
      (0, { app := update_motor_status 1 speed (-1) (update_motor_status 0 speed 1 w.app)
            drv := p.2.1 }, p.2.2)

/-- Embedding of `motor_app_stop_all` from `motor_control_app.c`. -/
def motor_app_stop_all (port : MotorPort) (w : MotorWorld) :
    Int × MotorWorld × List PortCall :=
  if w.app.initialized = false then (-1, w, [])
  else
    let p := tb6612_stop_all port w.drv
    if p.1 ≠ Tb6612Error.ok then (-1, { w with drv := p.2.1 }, p.2.2)
    else
      (0, { app := update_motor_status 1 0 0 (update_motor_status 0 0 0 w.app)
            drv := p.2.1 }, p.2.2)

/-- Embedding of `motor_app_init` from `motor_control_app.c`. -/
def motor_app_init (port : MotorPort) (w : MotorWorld) :
    Int × MotorWorld × List PortCall :=
  if w.app.initialized = true then (0, w, [])
  else
    let p := tb6612_init port w.drv
    if p.1 ≠ Tb6612Error.ok then (-1, { app := motor_app_status_zero, drv := p.2.1 }, p.2.2)
    else
      let app1 := { motor_app_status_zero with
                      initialized := true, motor_a_enabled := true, motor_b_enabled := true }
      let q := tb6612_stop_all port p.2.1
      (0, { app := app1, drv := q.2.1 }, p.2.2 ++ q.2.2)

/-- Embedding of `motor_app_get_status` from `motor_control_app.c`: copies the retained
status out when the pointer is non-null and the app is initialized. -/
def motor_app_get_status (statusPtr : Bool) (w : MotorWorld) :
    Int × Option MotorAppStatus :=
  if statusPtr = false then (-1, none)
  else if w.app.initialized = false then (-1, none)
  else (0, some w.app)

/-- A concrete fully-initialized world used for witnesses. -/
def w0 : MotorWorld :=
  { app := { initialized := true, motor_a_enabled := true, motor_b_enabled := true
             current_speed_a := 0, current_speed_b := 0, current_dir_a := 0, current_dir_b := 0 }
    drv := { tb6612_reset_driver with initialized := true } }

example : (motor_app_control_motors okPort (some { left_speed := -40, right_speed := 40 }) w0).1
    = 0 := by decide

example : (motor_app_control_motors okPort (some { left_speed := -40, right_speed := 40 })
    w0).2.1.app.current_dir_a = -1 := by decide

/-! ### JY61P sensor application layer (`jy61p_app.c` / `jy61p_app.h`)

The WIT vendor SDK is abstracted: a probe read (`WitReadReg(AX, 3)`) fired at
a bus address that hosts a responding sensor invokes the registered callback
`jy61p_sensor_data_process` with the read register span, and does nothing
otherwise. The environment `responds : Nat → Bool` records which addresses
answer. -/

/-- WIT SDK register index `AX`. -/
def regAX : Nat := 0x34

/-- WIT SDK register index `AZ`. -/
def regAZ : Nat := 0x36

/-- WIT SDK register index `GZ`. -/
def regGZ : Nat := 0x39

/-- WIT SDK register index `HZ`. -/
def regHZ : Nat := 0x3C

/-- WIT SDK register index `Yaw`. -/
def regYaw : Nat := 0x3F

/-- Embedding of `ACC_UPDATE` flag bit from `jy61p_app.c`. -/
def ACC_UPDATE : Nat := 0x01

/-- Embedding of `GYRO_UPDATE` flag bit from `jy61p_app.c`. -/
def GYRO_UPDATE : Nat := 0x02

/-- Embedding of `ANGLE_UPDATE` flag bit from `jy61p_app.c`. -/
def ANGLE_UPDATE : Nat := 0x04

/-- Embedding of `MAG_UPDATE` flag bit from `jy61p_app.c`. -/
def MAG_UPDATE : Nat := 0x08

/-- Embedding of `READ_UPDATE` flag bit from `jy61p_app.c`. -/
def READ_UPDATE : Nat := 0x80

/-- The flag OR-ed into `data_update_flags` for one register index: the
`switch (uiReg)` body of `jy61p_sensor_data_process`. -/
def jy61p_flag_for (reg : Nat) : Nat :=
  if reg = regAZ then ACC_UPDATE
  else if reg = regGZ then GYRO_UPDATE
  else if reg = regHZ then MAG_UPDATE
  else if reg = regYaw then ANGLE_UPDATE
  else READ_UPDATE

/-- Embedding of `jy61p_sensor_data_process` from `jy61p_app.c`: for `uiRegNum` registers
starting at `uiReg`, OR the per-register flag into `data_update_flags`. -/
def jy61p_sensor_data_process (flags : Nat) : Nat → Nat → Nat
  | _, 0 => flags
  | reg, n + 1 => jy61p_sensor_data_process (flags ||| jy61p_flag_for reg) (reg + 1) n

/-- Embedding of `jy61p_app_context_t` from `jy61p_app.c`; the sensor-data payload type is
a parameter (its float contents are never inspected by the embedded code). -/
structure Jy61pCtx (α : Type) where
  data_update_flags : Nat
  cmd_received : Nat
  sensor_data : α
  sensor_found : Bool
  sensor_addr : Nat
deriving DecidableEq, Repr

/-- Observable events of the scan loop: an SDK re-targeting (`WitInit`), a
flag reset, a probe read (`WitReadReg(AX, 3)`) at the targeted address, and a
settling delay (`wit_port_delay_ms`). -/
inductive ScanEvent
  | witInit (addr : Nat)
  | flagReset
  | probe (addr : Nat)
  | delayMs (ms : Nat)
deriving DecidableEq, Repr

/-- One retry iteration of the scan (lines 180-184 of `jy61p_app.c`): reset
`data_update_flags` to 0, issue the probe read (which fires the callback over
registers `AX, AX+1, AX+2` iff a sensor responds at `addr`), then delay 10 ms.
Returns the flag value after the iteration and the emitted events. -/
def jy61p_probe_once (responds : Nat → Bool) (addr : Nat) (_flags : Nat) :
    Nat × List ScanEvent :=
  let flagsR : Nat := 0
  let flags1 := if responds addr = true then jy61p_sensor_data_process flagsR regAX 3 else flagsR
  (flags1, [ScanEvent.flagReset, ScanEvent.probe addr, ScanEvent.delayMs 10])

/-- The bounded retry loop (`for retry = 0; retry < 2; ...`) at one candidate
address: returns whether the address was accepted, the final flag value, and
the emitted events. -/
def jy61p_scan_tries (responds : Nat → Bool) (addr : Nat) :
    Nat → Nat → Bool × Nat × List ScanEvent
  | 0, flags => (false, flags, [])
  | n + 1, flags =>
    let p := jy61p_probe_once responds addr flags
    if p.1 ≠ 0 then (true, p.1, p.2)
    else
      let q := jy61p_scan_tries responds addr n p.1
      (q.1, q.2.1, p.2 ++ q.2.2)

/-- The address loop of `jy61p_sensor_scan` over an explicit list of
candidate addresses: re-target the SDK (`WitInit`), run the retry loop, stop
at the first accepted address. -/
def jy61p_scan_list (responds : Nat → Bool) :
    List Nat → Nat → Option Nat × Nat × List ScanEvent
  | [], flags => (none, flags, [])
  | a :: rest, flags =>
    let p := jy61p_scan_tries responds a 2 flags
    if p.1 = true then (some a, p.2.1, ScanEvent.witInit a :: p.2.2)
    else
      let q := jy61p_scan_list responds rest p.2.1
      (q.1, q.2.1, (ScanEvent.witInit a :: p.2.2) ++ q.2.2)

/-- Embedding of `jy61p_sensor_scan` from `jy61p_app.c`: probe addresses `0x00..0x7E` in
increasing order; on the first accepted address record it in the context and
return 0, otherwise return -1. -/
def jy61p_sensor_scan {α : Type} (responds : Nat → Bool) (ctx : Jy61pCtx α) :
    Int × Jy61pCtx α × List ScanEvent :=
  let p := jy61p_scan_list responds (List.range 127) ctx.data_update_flags
  match p.1 with
  | some a =>
    (0, { ctx with data_update_flags := p.2.1, sensor_found := true, sensor_addr := a }, p.2.2)
  | none => (-1, { ctx with data_update_flags := p.2.1 }, p.2.2)

/-- Embedding of `jy61p_get_sensor_address` from `jy61p_app.c`. -/
def jy61p_get_sensor_address {α : Type} (ctx : Jy61pCtx α) : Nat :=
  if ctx.sensor_found = true then ctx.sensor_addr else 0xFF

/-- Embedding of `jy61p_is_sensor_connected` from `jy61p_app.c`. -/
def jy61p_is_sensor_connected {α : Type} (ctx : Jy61pCtx α) : Bool :=
  ctx.sensor_found

/-- Embedding of `jy61p_get_sensor_data` from `jy61p_app.c`; the output pointer is
abstracted to a validity flag, and `none` in the second component means the
output structure was not written. -/
def jy61p_get_sensor_data {α : Type} (dataPtr : Bool) (ctx : Jy61pCtx α) :
    Int × Option α :=
  if dataPtr = false then (-1, none)
  else if ctx.sensor_found = false then (-1, none)
  else (0, some ctx.sensor_data)

/-- The addresses the scan visited (one per `WitInit` re-targeting). -/
def scanVisited (evs : List ScanEvent) : List Nat :=
  evs.filterMap (fun e => match e with | ScanEvent.witInit a => some a | _ => none)

/-- The addresses of the probe reads the scan issued. -/
def scanProbes (evs : List ScanEvent) : List Nat :=
  evs.filterMap (fun e => match e with | ScanEvent.probe a => some a | _ => none)

/-- The event group of a single probe attempt at `a`: flag reset, probe read,
settling delay. -/
def scanGroup (a : Nat) : List ScanEvent :=
  [ScanEvent.flagReset, ScanEvent.probe a, ScanEvent.delayMs 10]

/-- The full event block of one candidate address: SDK re-targeting followed
by one probe group when the address responds (accepted on the first try),
two probe groups otherwise. -/
def scanBlock (responds : Nat → Bool) (a : Nat) : List ScanEvent :=
  ScanEvent.witInit a :: (if responds a = true then scanGroup a else scanGroup a ++ scanGroup a)

/-- A concrete scan context used for witnesses. -/
def ctx0 : Jy61pCtx Unit :=
  { data_update_flags := 0, cmd_received := 0xFF, sensor_data := ()
    sensor_found := false, sensor_addr := 0 }

example : jy61p_sensor_data_process 0 regAX 3 = 0x81 := by decide

example : (jy61p_sensor_scan (fun a => a = 5) ctx0).2.1.sensor_addr = 5 := by decide

example : (jy61p_sensor_scan (fun _ => false) ctx0).1 = -1 := by decide

/-! ### Driver-layer lemmas -/

theorem Tb6612Driver.setStatus_initialized (s : Tb6612Driver) (m : Tb6612Motor)
    (e : Tb6612MotorStatus) : (s.setStatus m e).initialized = s.initialized := by
  cases m <;> rfl

theorem tb6612_set_direction_eq (port : MotorPort) (m : Tb6612Motor) (d : Tb6612Direction)
    (s : Tb6612Driver) (hinit : s.initialized = true) :
    tb6612_set_direction port m d s =
      if port.setDirResult m d = Tb6612Error.ok then
        (Tb6612Error.ok, s.setStatus m (tb6612_dir_update d (s.getStatus m)),
          [PortCall.setDir m d])
      else (port.setDirResult m d, s, [PortCall.setDir m d]) := by
  by_cases hp : port.setDirResult m d = Tb6612Error.ok <;>
    simp [tb6612_set_direction, hinit, tb6612_is_valid_motor, tb6612_is_valid_direction, hp]

theorem tb6612_set_speed_eq (port : MotorPort) (m : Tb6612Motor) (sp : Nat)
    (s : Tb6612Driver) (hinit : s.initialized = true) (hsp : sp ≤ 100) :
    tb6612_set_speed port m sp s =
      if port.setSpeedResult m sp = Tb6612Error.ok then
        (Tb6612Error.ok, s.setStatus m (tb6612_speed_update sp (s.getStatus m)),
          [PortCall.setSpeed m sp])
      else (port.setSpeedResult m sp, s, [PortCall.setSpeed m sp]) := by
  by_cases hp : port.setSpeedResult m sp = Tb6612Error.ok <;>
    simp [tb6612_set_speed, hinit, tb6612_is_valid_motor, tb6612_is_valid_speed, hsp, hp]

/-- The driver state after `tb6612_set_direction` succeeds. -/
def tb6612_dir_applied (m : Tb6612Motor) (d : Tb6612Direction) (s : Tb6612Driver) :
    Tb6612Driver :=
  s.setStatus m (tb6612_dir_update d (s.getStatus m))

/-- The driver state after `tb6612_set_speed` succeeds. -/
def tb6612_speed_applied (m : Tb6612Motor) (sp : Nat) (s : Tb6612Driver) :
    Tb6612Driver :=
  s.setStatus m (tb6612_speed_update sp (s.getStatus m))

theorem tb6612_set_motor_pair_cases (port : MotorPort) (sa : Nat) (da : Tb6612Direction)
    (sb : Nat) (db : Tb6612Direction) (s : Tb6612Driver)
    (hinit : s.initialized = true) (hsa : sa ≤ 100) (hsb : sb ≤ 100) :
    tb6612_set_motor_pair port sa da sb db s =
      if port.setDirResult Tb6612Motor.A da ≠ Tb6612Error.ok then
        (port.setDirResult Tb6612Motor.A da, s, [PortCall.setDir Tb6612Motor.A da])
      else if port.setDirResult Tb6612Motor.B db ≠ Tb6612Error.ok then
        (port.setDirResult Tb6612Motor.B db, tb6612_dir_applied Tb6612Motor.A da s,
          [PortCall.setDir Tb6612Motor.A da, PortCall.setDir Tb6612Motor.B db])
      else if port.setSpeedResult Tb6612Motor.A sa ≠ Tb6612Error.ok then
        (port.setSpeedResult Tb6612Motor.A sa,
          tb6612_dir_applied Tb6612Motor.B db (tb6612_dir_applied Tb6612Motor.A da s),
          [PortCall.setDir Tb6612Motor.A da, PortCall.setDir Tb6612Motor.B db,
           PortCall.setSpeed Tb6612Motor.A sa])
      else if port.setSpeedResult Tb6612Motor.B sb ≠ Tb6612Error.ok then
        (port.setSpeedResult Tb6612Motor.B sb,
          tb6612_speed_applied Tb6612Motor.A sa
            (tb6612_dir_applied Tb6612Motor.B db (tb6612_dir_applied Tb6612Motor.A da s)),
          [PortCall.setDir Tb6612Motor.A da, PortCall.setDir Tb6612Motor.B db,
           PortCall.setSpeed Tb6612Motor.A sa, PortCall.setSpeed Tb6612Motor.B sb])
      else
        (Tb6612Error.ok,
          tb6612_speed_applied Tb6612Motor.B sb
            (tb6612_speed_applied Tb6612Motor.A sa
              (tb6612_dir_applied Tb6612Motor.B db (tb6612_dir_applied Tb6612Motor.A da s))),
          [PortCall.setDir Tb6612Motor.A da, PortCall.setDir Tb6612Motor.B db,
           PortCall.setSpeed Tb6612Motor.A sa, PortCall.setSpeed Tb6612Motor.B sb]) := by
  by_cases h1 : port.setDirResult Tb6612Motor.A da = Tb6612Error.ok <;>
  by_cases h2 : port.setDirResult Tb6612Motor.B db = Tb6612Error.ok <;>
  by_cases h3 : port.setSpeedResult Tb6612Motor.A sa = Tb6612Error.ok <;>
  by_cases h4 : port.setSpeedResult Tb6612Motor.B sb = Tb6612Error.ok <;>
    simp [tb6612_set_motor_pair, tb6612_set_direction, tb6612_set_speed,
      tb6612_is_valid_motor, tb6612_is_valid_direction, tb6612_is_valid_speed,
      tb6612_dir_applied, tb6612_speed_applied, Tb6612Driver.setStatus, Tb6612Driver.getStatus,
      hinit, hsa, hsb, h1, h2, h3, h4]

theorem tb6612_set_motor_pair_not_init (port : MotorPort) (sa : Nat) (da : Tb6612Direction)
    (sb : Nat) (db : Tb6612Direction) (s : Tb6612Driver) (h : s.initialized = false) :
    tb6612_set_motor_pair port sa da sb db s = (Tb6612Error.notInit, s, []) := by
  simp [tb6612_set_motor_pair, h]

theorem tb6612_set_motor_pair_bad_speed (port : MotorPort) (sa : Nat) (da : Tb6612Direction)
    (sb : Nat) (db : Tb6612Direction) (s : Tb6612Driver)
    (hinit : s.initialized = true) (h : 100 < sa ∨ 100 < sb) :
    tb6612_set_motor_pair port sa da sb db s = (Tb6612Error.invalidParam, s, []) := by
  have hv : tb6612_is_valid_speed sa = false ∨ tb6612_is_valid_speed sb = false := by
    rcases h with h | h
    · exact Or.inl (by simp [tb6612_is_valid_speed]; omega)
    · exact Or.inr (by simp [tb6612_is_valid_speed]; omega)
  simp only [tb6612_set_motor_pair, hinit, Bool.true_eq_false, if_false, if_pos hv]

theorem tb6612_set_motor_pair_ok_trace (port : MotorPort) (sa : Nat) (da : Tb6612Direction)
    (sb : Nat) (db : Tb6612Direction) (s : Tb6612Driver)
    (h : (tb6612_set_motor_pair port sa da sb db s).1 = Tb6612Error.ok) :
    (tb6612_set_motor_pair port sa da sb db s).2.2 =
      [PortCall.setDir Tb6612Motor.A da, PortCall.setDir Tb6612Motor.B db,
       PortCall.setSpeed Tb6612Motor.A sa, PortCall.setSpeed Tb6612Motor.B sb] := by
  by_cases hinit : s.initialized = true
  case neg =>
    rw [tb6612_set_motor_pair_not_init port sa da sb db s (by simpa using hinit)] at h
    exact absurd h (by simp)
  case pos =>
    by_cases hsa : sa ≤ 100
    case neg =>
      rw [tb6612_set_motor_pair_bad_speed port sa da sb db s hinit (Or.inl (by omega))] at h
      exact absurd h (by simp)
    by_cases hsb : sb ≤ 100
    case neg =>
      rw [tb6612_set_motor_pair_bad_speed port sa da sb db s hinit (Or.inr (by omega))] at h
      exact absurd h (by simp)
    rw [tb6612_set_motor_pair_cases port sa da sb db s hinit hsa hsb] at h ⊢
    split_ifs at h ⊢ with e1 e2 e3 e4 <;> simp_all

/-- C5: with the driver initialized and both speed arguments valid,
`tb6612_set_motor_pair` issues its port calls in the order direction-A,
direction-B, speed-A, speed-B (the issued calls always form a prefix of that
sequence, and on success the sequence is issued in full): both wheels'
directions are set before either wheel's speed. -/
theorem tb6612_set_motor_pair_order (port : MotorPort) (s : Tb6612Driver)
    (sa sb : Nat) (da db : Tb6612Direction)
    (hinit : s.initialized = true) (hsa : sa ≤ 100) (hsb : sb ≤ 100) :
    (tb6612_set_motor_pair port sa da sb db s).2.2 <+:
      [PortCall.setDir Tb6612Motor.A da, PortCall.setDir Tb6612Motor.B db,
       PortCall.setSpeed Tb6612Motor.A sa, PortCall.setSpeed Tb6612Motor.B sb] ∧
    ((tb6612_set_motor_pair port sa da sb db s).1 = Tb6612Error.ok →
      (tb6612_set_motor_pair port sa da sb db s).2.2 =
        [PortCall.setDir Tb6612Motor.A da, PortCall.setDir Tb6612Motor.B db,
         PortCall.setSpeed Tb6612Motor.A sa, PortCall.setSpeed Tb6612Motor.B sb]) := by
  refine ⟨?_, tb6612_set_motor_pair_ok_trace port sa da sb db s⟩
  rw [tb6612_set_motor_pair_cases port sa da sb db s hinit hsa hsb]
  split_ifs <;> simp only
  · exact ⟨[PortCall.setDir Tb6612Motor.B db, PortCall.setSpeed Tb6612Motor.A sa,
      PortCall.setSpeed Tb6612Motor.B sb], rfl⟩
  · exact ⟨[PortCall.setSpeed Tb6612Motor.A sa, PortCall.setSpeed Tb6612Motor.B sb], rfl⟩
  · exact ⟨[PortCall.setSpeed Tb6612Motor.B sb], rfl⟩
  · exact ⟨[], by simp⟩
  · exact ⟨[], by simp⟩

theorem tb6612_set_motor_pair_order_w :
    (tb6612_set_motor_pair okPort 30 Tb6612Direction.forward 40
        Tb6612Direction.backward { tb6612_reset_driver with initialized := true }).2.2 <+:
      [PortCall.setDir Tb6612Motor.A Tb6612Direction.forward,
       PortCall.setDir Tb6612Motor.B Tb6612Direction.backward,
       PortCall.setSpeed Tb6612Motor.A 30, PortCall.setSpeed Tb6612Motor.B 40] ∧
    ((tb6612_set_motor_pair okPort 30 Tb6612Direction.forward 40 Tb6612Direction.backward
        { tb6612_reset_driver with initialized := true }).1 = Tb6612Error.ok →
      (tb6612_set_motor_pair okPort 30 Tb6612Direction.forward 40 Tb6612Direction.backward
        { tb6612_reset_driver with initialized := true }).2.2 =
        [PortCall.setDir Tb6612Motor.A Tb6612Direction.forward,
         PortCall.setDir Tb6612Motor.B Tb6612Direction.backward,
         PortCall.setSpeed Tb6612Motor.A 30, PortCall.setSpeed Tb6612Motor.B 40]) :=
  tb6612_set_motor_pair_order okPort { tb6612_reset_driver with initialized := true }
    30 40 Tb6612Direction.forward Tb6612Direction.backward rfl (by decide) (by decide)

/-! ### Sign-translation lemmas -/

theorem signToDir_forward_iff (x : Int) : signToDir x = Tb6612Direction.forward ↔ 0 < x := by
  unfold signToDir; split_ifs with h1 h2 <;> simp_all <;> omega

theorem signToDir_backward_iff (x : Int) : signToDir x = Tb6612Direction.backward ↔ x < 0 := by
  unfold signToDir; split_ifs with h1 h2 <;> simp_all <;> omega

theorem signToDir_stop_iff (x : Int) : signToDir x = Tb6612Direction.stop ↔ x = 0 := by
  unfold signToDir; split_ifs with h1 h2 <;> simp_all <;> omega

theorem signToInt_one_iff (x : Int) : signToInt x = 1 ↔ 0 < x := by
  unfold signToInt; split_ifs with h1 h2 <;> simp_all <;> omega

theorem signToInt_negone_iff (x : Int) : signToInt x = -1 ↔ x < 0 := by
  unfold signToInt; split_ifs with h1 h2 <;> simp_all <;> omega

theorem signToInt_zero_iff (x : Int) : signToInt x = 0 ↔ x = 0 := by
  unfold signToInt; split_ifs with h1 h2 <;> simp_all <;> omega

/-! ### Application-layer theorems for the motor subsystem -/

/-- C1: for in-range signed speeds, a successful `motor_app_control_motors`
records in the retained status, and passes to the driver, a per-wheel
magnitude equal to the absolute value of the signed speed together with a
direction that is Forward iff the signed speed is positive, Backward iff it
is negative, and Stop iff it is zero. -/
theorem motor_app_control_motors_sign_rule (port : MotorPort) (w : MotorWorld)
    (c : MotorControl)
    (hl : -100 ≤ c.left_speed ∧ c.left_speed ≤ 100)
    (hr : -100 ≤ c.right_speed ∧ c.right_speed ≤ 100)
    (hok : (motor_app_control_motors port (some c) w).1 = 0) :
    ((motor_app_control_motors port (some c) w).2.1.app.current_speed_a
        = c.left_speed.natAbs) ∧
    ((motor_app_control_motors port (some c) w).2.1.app.current_speed_b
        = c.right_speed.natAbs) ∧
    ((motor_app_control_motors port (some c) w).2.1.app.current_dir_a = 1 ↔
        0 < c.left_speed) ∧
    ((motor_app_control_motors port (some c) w).2.1.app.current_dir_a = -1 ↔
        c.left_speed < 0) ∧
    ((motor_app_control_motors port (some c) w).2.1.app.current_dir_a = 0 ↔
        c.left_speed = 0) ∧
    ((motor_app_control_motors port (some c) w).2.1.app.current_dir_b = 1 ↔
        0 < c.right_speed) ∧
    ((motor_app_control_motors port (some c) w).2.1.app.current_dir_b = -1 ↔
        c.right_speed < 0) ∧
    ((motor_app_control_motors port (some c) w).2.1.app.current_dir_b = 0 ↔
        c.right_speed = 0) ∧
    (∃ da db : Tb6612Direction,
      (motor_app_control_motors port (some c) w).2.2 =
        [PortCall.setDir Tb6612Motor.A da, PortCall.setDir Tb6612Motor.B db,
         PortCall.setSpeed Tb6612Motor.A c.left_speed.natAbs,
         PortCall.setSpeed Tb6612Motor.B c.right_speed.natAbs] ∧
      (da = Tb6612Direction.forward ↔ 0 < c.left_speed) ∧
      (da = Tb6612Direction.backward ↔ c.left_speed < 0) ∧
      (da = Tb6612Direction.stop ↔ c.left_speed = 0) ∧
      (db = Tb6612Direction.forward ↔ 0 < c.right_speed) ∧
      (db = Tb6612Direction.backward ↔ c.right_speed < 0) ∧
      (db = Tb6612Direction.stop ↔ c.right_speed = 0)) := by
  by_cases happ : w.app.initialized = true
  case neg =>
    simp [motor_app_control_motors, Bool.eq_false_iff.mpr happ] at hok
  by_cases hp : (tb6612_set_motor_pair port c.left_speed.natAbs (signToDir c.left_speed)
      c.right_speed.natAbs (signToDir c.right_speed) w.drv).1 = Tb6612Error.ok
  case neg =>
    simp [motor_app_control_motors, happ, hp] at hok
  have hctrl : motor_app_control_motors port (some c) w =
      (0, { app := update_motor_status 1 c.right_speed.natAbs (signToInt c.right_speed)
              (update_motor_status 0 c.left_speed.natAbs (signToInt c.left_speed) w.app)
            drv := (tb6612_set_motor_pair port c.left_speed.natAbs (signToDir c.left_speed)
              c.right_speed.natAbs (signToDir c.right_speed) w.drv).2.1 },
        (tb6612_set_motor_pair port c.left_speed.natAbs (signToDir c.left_speed)
          c.right_speed.natAbs (signToDir c.right_speed) w.drv).2.2) := by
    simp [motor_app_control_motors, happ, hp]
  rw [hctrl]
  refine ⟨by simp [update_motor_status], by simp [update_motor_status],
    ?_, ?_, ?_, ?_, ?_, ?_,
    signToDir c.left_speed, signToDir c.right_speed,
    tb6612_set_motor_pair_ok_trace _ _ _ _ _ _ hp,
    signToDir_forward_iff _, signToDir_backward_iff _, signToDir_stop_iff _,
    signToDir_forward_iff _, signToDir_backward_iff _, signToDir_stop_iff _⟩ <;>
    simp only [update_motor_status, if_pos rfl, if_neg (by decide : ¬(1 : Nat) = 0)]
  · exact signToInt_one_iff _
  · exact signToInt_negone_iff _
  · exact signToInt_zero_iff _
  · exact signToInt_one_iff _
  · exact signToInt_negone_iff _
  · exact signToInt_zero_iff _

theorem motor_app_control_motors_sign_rule_w :
    ((motor_app_control_motors okPort (some { left_speed := -40, right_speed := 40 })
        w0).2.1.app.current_speed_a = 40) ∧
    ((motor_app_control_motors okPort (some { left_speed := -40, right_speed := 40 })
        w0).2.1.app.current_dir_a = -1 ↔ ((-40 : Int) < 0)) :=
  ⟨by decide,
   ((motor_app_control_motors_sign_rule okPort w0 { left_speed := -40, right_speed := 40 }
      (by decide) (by decide) (by decide)).2.2.2.1)⟩

/-- A port on which every hardware call fails. -/
def failPort : MotorPort :=
  { initResult := Tb6612Error.hardwareFault
    setDirResult := fun _ _ => Tb6612Error.hardwareFault
    setSpeedResult := fun _ _ => Tb6612Error.hardwareFault }

/-- C2: `motor_app_control_motors` updates the retained status atomically:
after any call the status record is either completely unchanged (both wheels'
old values) or holds both wheels' new derived values; and whenever the call
does not succeed — in particular when `tb6612_set_motor_pair` fails — the
status is completely unchanged. -/
theorem motor_app_control_motors_atomic (port : MotorPort) (w : MotorWorld)
    (ctl : Option MotorControl) :
    ((motor_app_control_motors port ctl w).2.1.app = w.app ∨
      (∃ c, ctl = some c ∧
        (motor_app_control_motors port ctl w).2.1.app =
          { w.app with
              current_speed_a := c.left_speed.natAbs
              current_dir_a := signToInt c.left_speed
              current_speed_b := c.right_speed.natAbs
              current_dir_b := signToInt c.right_speed })) ∧
    ((motor_app_control_motors port ctl w).1 ≠ 0 →
      (motor_app_control_motors port ctl w).2.1.app = w.app) := by
  match ctl with
  | none => exact ⟨Or.inl (by simp [motor_app_control_motors]), fun _ => by
      simp [motor_app_control_motors]⟩
  | some c =>
    by_cases happ : w.app.initialized = true
    case neg =>
      refine ⟨Or.inl ?_, fun _ => ?_⟩ <;>
        simp [motor_app_control_motors, Bool.eq_false_iff.mpr happ]
    by_cases hp : (tb6612_set_motor_pair port c.left_speed.natAbs (signToDir c.left_speed)
        c.right_speed.natAbs (signToDir c.right_speed) w.drv).1 = Tb6612Error.ok
    case neg =>
      refine ⟨Or.inl ?_, fun _ => ?_⟩ <;>
        simp [motor_app_control_motors, happ, hp]
    refine ⟨Or.inr ⟨c, rfl, ?_⟩, fun h0 => absurd ?_ h0⟩
    · simp [motor_app_control_motors, happ, hp, update_motor_status]
    · simp [motor_app_control_motors, happ, hp]

theorem motor_app_control_motors_atomic_w :
    (motor_app_control_motors failPort (some { left_speed := 50, right_speed := 50 })
        w0).2.1.app = w0.app :=
  (motor_app_control_motors_atomic failPort w0
    (some { left_speed := 50, right_speed := 50 })).2 (by decide)

/-- C3 (code bug): at speed 30 from a freshly initialized world,
`motor_app_turn_left` issues exactly the hardware commands of
`motor_app_control_motors` with `{left_speed := 0, right_speed := 30}`
(left wheel Stop at magnitude 0, right wheel Forward at magnitude 30, so the
driver leaves motor A stopped at speed 0), but records motor A in the
retained status as moving backward at speed 30, whereas the pair translation
records (0, stop): the retained status contradicts the hardware command the
same call just issued. -/
theorem motor_app_turn_left_status_bug :
    (motor_app_turn_left okPort 30 w0).2.2 =
      (motor_app_control_motors okPort (some { left_speed := 0, right_speed := 30 }) w0).2.2 ∧
    (motor_app_turn_left okPort 30 w0).2.2 =
      [PortCall.setDir Tb6612Motor.A Tb6612Direction.stop,
       PortCall.setDir Tb6612Motor.B Tb6612Direction.forward,
       PortCall.setSpeed Tb6612Motor.A 0, PortCall.setSpeed Tb6612Motor.B 30] ∧
    (motor_app_turn_left okPort 30 w0).1 = 0 ∧
    (motor_app_control_motors okPort (some { left_speed := 0, right_speed := 30 }) w0).1 = 0 ∧
    (motor_app_turn_left okPort 30 w0).2.1.drv =
      (motor_app_control_motors okPort
        (some { left_speed := 0, right_speed := 30 }) w0).2.1.drv ∧
    (motor_app_turn_left okPort 30 w0).2.1.drv.statusA =
      { direction := Tb6612Direction.stop, state := Tb6612State.idle, speed_percent := 0 } ∧
    (motor_app_turn_left okPort 30 w0).2.1.app.current_speed_a = 30 ∧
    (motor_app_turn_left okPort 30 w0).2.1.app.current_dir_a = -1 ∧
    (motor_app_control_motors okPort (some { left_speed := 0, right_speed := 30 })
        w0).2.1.app.current_speed_a = 0 ∧
    (motor_app_control_motors okPort (some { left_speed := 0, right_speed := 30 })
        w0).2.1.app.current_dir_a = 0 := by
  decide

/-- C4: every motor-app control operation rejects a null command pointer, an
out-of-range signed speed, or an uninitialized application by returning -1
while issuing no port-layer hardware call and leaving the retained status
record unchanged. -/
theorem motor_app_reject_no_effect (port : MotorPort) (w : MotorWorld) :
    (∀ ctl : Option MotorControl,
      (ctl = none ∨ w.app.initialized = false ∨
        (∃ c, ctl = some c ∧
          (c.left_speed < -100 ∨ 100 < c.left_speed ∨
           c.right_speed < -100 ∨ 100 < c.right_speed))) →
      (motor_app_control_motors port ctl w).1 = -1 ∧
      (motor_app_control_motors port ctl w).2.1.app = w.app ∧
      (motor_app_control_motors port ctl w).2.2 = []) ∧
    (∀ sp : Nat, (100 < sp ∨ w.app.initialized = false) →
      (motor_app_move_forward port sp w).1 = -1 ∧
      (motor_app_move_forward port sp w).2.1.app = w.app ∧
      (motor_app_move_forward port sp w).2.2 = []) ∧
    (∀ sp : Nat, (100 < sp ∨ w.app.initialized = false) →
      (motor_app_move_backward port sp w).1 = -1 ∧
      (motor_app_move_backward port sp w).2.1.app = w.app ∧
      (motor_app_move_backward port sp w).2.2 = []) ∧
    (∀ sp : Nat, (100 < sp ∨ w.app.initialized = false) →
      (motor_app_turn_left port sp w).1 = -1 ∧
      (motor_app_turn_left port sp w).2.1.app = w.app ∧
      (motor_app_turn_left port sp w).2.2 = []) ∧
    (∀ sp : Nat, (100 < sp ∨ w.app.initialized = false) →
      (motor_app_turn_right port sp w).1 = -1 ∧
      (motor_app_turn_right port sp w).2.1.app = w.app ∧
      (motor_app_turn_right port sp w).2.2 = []) ∧
    (w.app.initialized = false →
      (motor_app_stop_all port w).1 = -1 ∧
      (motor_app_stop_all port w).2.1.app = w.app ∧
      (motor_app_stop_all port w).2.2 = []) := by
  have hcm : ∀ ctl : Option MotorControl,
      (ctl = none ∨ w.app.initialized = false ∨
        (∃ c, ctl = some c ∧
          (c.left_speed < -100 ∨ 100 < c.left_speed ∨
           c.right_speed < -100 ∨ 100 < c.right_speed))) →
      (motor_app_control_motors port ctl w).1 = -1 ∧
      (motor_app_control_motors port ctl w).2.1.app = w.app ∧
      (motor_app_control_motors port ctl w).2.2 = [] := by
    intro ctl h
    rcases h with hnone | hninit | ⟨c, hc, hrange⟩
    · subst hnone; simp [motor_app_control_motors]
    · match ctl with
      | none => simp [motor_app_control_motors]
      | some c => simp [motor_app_control_motors, hninit]
    · subst hc
      by_cases happ : w.app.initialized = true
      case neg => simp [motor_app_control_motors, Bool.eq_false_iff.mpr happ]
      have hbad : 100 < c.left_speed.natAbs ∨ 100 < c.right_speed.natAbs := by
        rcases hrange with h | h | h | h
        · exact Or.inl (by omega)
        · exact Or.inl (by omega)
        · exact Or.inr (by omega)
        · exact Or.inr (by omega)
      by_cases hdrv : w.drv.initialized = true
      · have := tb6612_set_motor_pair_bad_speed port c.left_speed.natAbs
          (signToDir c.left_speed) c.right_speed.natAbs (signToDir c.right_speed) w.drv
          hdrv hbad
        simp [motor_app_control_motors, happ, this]
      · have := tb6612_set_motor_pair_not_init port c.left_speed.natAbs
          (signToDir c.left_speed) c.right_speed.natAbs (signToDir c.right_speed) w.drv
          (by simpa using hdrv)
        simp [motor_app_control_motors, happ, this]
  refine ⟨hcm, ?_, ?_, ?_, ?_, ?_⟩
  · intro sp h
    rcases h with h | h
    · have hv : is_valid_speed sp = false := by simp [is_valid_speed]; omega
      simp [motor_app_move_forward, hv]
    · by_cases hv : is_valid_speed sp = false
      · simp [motor_app_move_forward, hv]
      · simp [motor_app_move_forward, hv, h]
  · intro sp h
    rcases h with h | h
    · have hv : is_valid_speed sp = false := by simp [is_valid_speed]; omega
      simp [motor_app_move_backward, hv]
    · by_cases hv : is_valid_speed sp = false
      · simp [motor_app_move_backward, hv]
      · simp [motor_app_move_backward, hv, h]
  · intro sp h
    rcases h with h | h
    · have hv : is_valid_speed sp = false := by simp [is_valid_speed]; omega
      simp [motor_app_turn_left, hv]
    · by_cases hv : is_valid_speed sp = false
      · simp [motor_app_turn_left, hv]
      · simp [motor_app_turn_left, hv, h]
  · intro sp h
    rcases h with h | h
    · have hv : is_valid_speed sp = false := by simp [is_valid_speed]; omega
      simp [motor_app_turn_right, hv]
    · by_cases hv : is_valid_speed sp = false
      · simp [motor_app_turn_right, hv]
      · simp [motor_app_turn_right, hv, h]
  · intro h
    simp [motor_app_stop_all, h]

theorem motor_app_reject_no_effect_w :
    (motor_app_control_motors okPort
        (some { left_speed := 200, right_speed := 10 }) w0).1 = -1 ∧
    (motor_app_control_motors okPort
        (some { left_speed := 200, right_speed := 10 }) w0).2.1.app = w0.app ∧
    (motor_app_control_motors okPort
        (some { left_speed := 200, right_speed := 10 }) w0).2.2 = [] :=
  (motor_app_reject_no_effect okPort w0).1
    (some { left_speed := 200, right_speed := 10 })
    (Or.inr (Or.inr ⟨{ left_speed := 200, right_speed := 10 }, rfl, by decide⟩))

/-- C9: `motor_app_init` is idempotent: on an already-initialized
application it returns 0 immediately, makes no port-layer call (so it neither
re-initializes the driver nor stops the motors) and leaves the whole state —
including the retained status record — unchanged; and for any state at all,
running it twice ends in exactly the state (and return code) of running it
once. -/
theorem motor_app_init_idempotent (port : MotorPort) (w : MotorWorld) :
    (w.app.initialized = true → motor_app_init port w = (0, w, [])) ∧
    (motor_app_init port (motor_app_init port w).2.1).2.1 = (motor_app_init port w).2.1 ∧
    (motor_app_init port (motor_app_init port w).2.1).1 = (motor_app_init port w).1 := by
  refine ⟨fun h => by simp [motor_app_init, h], ?_, ?_⟩ <;>
  · by_cases happ : w.app.initialized = true
    · simp [motor_app_init, happ]
    · have happ' : w.app.initialized = false := by simpa using happ
      by_cases hdrv : w.drv.initialized = true
      · have hi : tb6612_init port w.drv = (Tb6612Error.ok, w.drv, []) := by
          simp [tb6612_init, hdrv]
        simp [motor_app_init, happ', hi]
      · have hdrv' : w.drv.initialized = false := by simpa using hdrv
        by_cases hio : port.initResult = Tb6612Error.ok
        · have hi : tb6612_init port w.drv =
              (Tb6612Error.ok, { tb6612_reset_driver with initialized := true },
                [PortCall.initCall]) := by
            simp [tb6612_init, hdrv', hio]
          simp [motor_app_init, happ', hi]
        · have hi : tb6612_init port w.drv =
              (port.initResult, tb6612_reset_driver, [PortCall.initCall]) := by
            simp [tb6612_init, hdrv', hio]
          have hi2 : tb6612_init port tb6612_reset_driver =
              (port.initResult, tb6612_reset_driver, [PortCall.initCall]) := by
            simp [tb6612_init, tb6612_reset_driver, hio]
          simp [motor_app_init, happ', hi, hi2, hio, motor_app_status_zero]

theorem motor_app_init_idempotent_w :
    motor_app_init okPort w0 = (0, w0, []) :=
  (motor_app_init_idempotent okPort w0).1 rfl

/-! ### Scan-loop lemmas -/

theorem jy61p_process_ax : jy61p_sensor_data_process 0 regAX 3 = 0x81 := by decide

theorem jy61p_scan_tries_eq (responds : Nat → Bool) (a flags : Nat) :
    jy61p_scan_tries responds a 2 flags =
      if responds a = true then (true, 0x81, scanGroup a)
      else (false, 0, scanGroup a ++ scanGroup a) := by
  by_cases h : responds a = true <;>
    simp [jy61p_scan_tries, jy61p_probe_once, h, scanGroup, jy61p_process_ax]

theorem jy61p_scan_list_none (responds : Nat → Bool) (l : List Nat)
    (h : ∀ a ∈ l, responds a = false) :
    ∀ flags : Nat, ∃ f : Nat,
      jy61p_scan_list responds l flags = (none, f, l.flatMap (scanBlock responds)) := by
  induction l with
  | nil => intro flags; exact ⟨flags, by simp [jy61p_scan_list]⟩
  | cons a rest ih =>
    intro flags
    have ha : responds a = false := h a (by simp)
    have htr := jy61p_scan_tries_eq responds a flags
    rw [if_neg (by simp [ha])] at htr
    obtain ⟨f, hf⟩ := ih (fun b hb => h b (by simp [hb])) 0
    refine ⟨f, ?_⟩
    simp [jy61p_scan_list, htr, hf, scanBlock, ha]

theorem jy61p_scan_list_found (responds : Nat → Bool) (A : Nat) (hA : responds A = true) :
    ∀ (l1 l2 : List Nat) (flags : Nat), (∀ a ∈ l1, responds a = false) →
      jy61p_scan_list responds (l1 ++ A :: l2) flags =
        (some A, 0x81, l1.flatMap (scanBlock responds) ++ scanBlock responds A) := by
  intro l1
  induction l1 with
  | nil =>
    intro l2 flags _
    have htr := jy61p_scan_tries_eq responds A flags
    rw [if_pos hA] at htr
    simp [jy61p_scan_list, htr, scanBlock, hA]
  | cons a rest ih =>
    intro l2 flags h
    have ha : responds a = false := h a (by simp)
    have htr := jy61p_scan_tries_eq responds a flags
    rw [if_neg (by simp [ha])] at htr
    have hrest := ih l2 0 (fun b hb => h b (by simp [hb]))
    simp [jy61p_scan_list, htr, hrest, scanBlock, ha]

theorem scanVisited_append (l1 l2 : List ScanEvent) :
    scanVisited (l1 ++ l2) = scanVisited l1 ++ scanVisited l2 :=
  List.filterMap_append l1 l2 _

theorem scanProbes_append (l1 l2 : List ScanEvent) :
    scanProbes (l1 ++ l2) = scanProbes l1 ++ scanProbes l2 :=
  List.filterMap_append l1 l2 _

theorem scanVisited_block (responds : Nat → Bool) (a : Nat) :
    scanVisited (scanBlock responds a) = [a] := by
  by_cases h : responds a = true <;> simp [scanBlock, scanGroup, scanVisited, h]

theorem scanProbes_block (responds : Nat → Bool) (a : Nat) :
    scanProbes (scanBlock responds a) = if responds a = true then [a] else [a, a] := by
  by_cases h : responds a = true <;> simp [scanBlock, scanGroup, scanProbes, h]

theorem scanVisited_flatMap (responds : Nat → Bool) (l : List Nat) :
    scanVisited (l.flatMap (scanBlock responds)) = l := by
  induction l with
  | nil => rfl
  | cons a rest ih =>
    rw [List.flatMap_cons, scanVisited_append, scanVisited_block, ih]
    rfl

theorem scanProbes_flatMap_mem (responds : Nat → Bool) (l : List Nat) (b : Nat)
    (hb : b ∈ scanProbes (l.flatMap (scanBlock responds))) : b ∈ l := by
  induction l with
  | nil => simp [scanProbes] at hb
  | cons a rest ih =>
    rw [List.flatMap_cons, scanProbes_append] at hb
    rcases List.mem_append.mp hb with h | h
    · rw [scanProbes_block] at h
      have : b = a := by
        by_cases hr : responds a = true <;> simp [hr] at h <;> exact h
      simp [this]
    · simp [ih h]

theorem scanProbes_count_le_two (responds : Nat → Bool) (l : List Nat) (hl : l.Nodup)
    (a : Nat) : (scanProbes (l.flatMap (scanBlock responds))).count a ≤ 2 := by
  induction l with
  | nil => simp [scanProbes]
  | cons b rest ih =>
    obtain ⟨hb, hnd⟩ := List.nodup_cons.mp hl
    rw [List.flatMap_cons, scanProbes_append, List.count_append]
    by_cases hab : a = b
    · subst hab
      have h2 : (scanProbes (scanBlock responds a)).count a ≤ 2 := by
        rw [scanProbes_block]
        by_cases hr : responds a = true <;> simp [hr, List.count_cons]
      have h0 : (scanProbes (rest.flatMap (scanBlock responds))).count a = 0 :=
        List.count_eq_zero.mpr (fun hmem => hb (scanProbes_flatMap_mem responds rest a hmem))
      omega
    · have h0 : (scanProbes (scanBlock responds b)).count a = 0 := by
        rw [scanProbes_block]
        by_cases hr : responds b = true <;> simp [hr, List.count_cons, hab]
      have := ih hnd
      omega

/-! ### Scan theorems -/

/-- C7: with no responding device anywhere, the scan visits every address in
[0,126] exactly once in increasing order (the `WitInit` re-targetings are
exactly the list 0,1,...,126), returns -1 and leaves `sensor_found` clear. -/
theorem jy61p_scan_exhausts {α : Type} (responds : Nat → Bool) (ctx : Jy61pCtx α)
    (hnone : ∀ a, responds a = false) (hclear : ctx.sensor_found = false) :
    (jy61p_sensor_scan responds ctx).1 = -1 ∧
    (jy61p_sensor_scan responds ctx).2.1.sensor_found = false ∧
    scanVisited (jy61p_sensor_scan responds ctx).2.2 = List.range 127 := by
  obtain ⟨f, hf⟩ := jy61p_scan_list_none responds (List.range 127)
    (fun a _ => hnone a) ctx.data_update_flags
  refine ⟨?_, ?_, ?_⟩ <;>
    simp [jy61p_sensor_scan, hf, hclear, scanVisited_flatMap]

theorem jy61p_scan_exhausts_w :
    (jy61p_sensor_scan (fun _ => false) ctx0).1 = -1 ∧
    (jy61p_sensor_scan (fun _ => false) ctx0).2.1.sensor_found = false ∧
    scanVisited (jy61p_sensor_scan (fun _ => false) ctx0).2.2 = List.range 127 :=
  jy61p_scan_exhausts (fun _ => false) ctx0 (fun _ => rfl) rfl

/-- C6: with exactly one responding device, at address `A ≤ 126`, the scan
succeeds, records `A` as the sensor address, visits exactly the addresses
0,1,...,A in increasing order, and issues no probe read at any address
greater than `A`. -/
theorem jy61p_scan_finds_lowest {α : Type} (responds : Nat → Bool) (ctx : Jy61pCtx α)
    (A : Nat) (hA : A ≤ 126) (hresp : responds A = true)
    (hsilent : ∀ b, b ≠ A → responds b = false) :
    (jy61p_sensor_scan responds ctx).1 = 0 ∧
    (jy61p_sensor_scan responds ctx).2.1.sensor_found = true ∧
    (jy61p_sensor_scan responds ctx).2.1.sensor_addr = A ∧
    scanVisited (jy61p_sensor_scan responds ctx).2.2 = List.range (A + 1) ∧
    (∀ b ∈ scanProbes (jy61p_sensor_scan responds ctx).2.2, b ≤ A) := by
  have hdec : List.range 127 = List.range A ++ A :: List.drop (A + 1) (List.range 127) := by
    conv_lhs => rw [← List.take_append_drop (A + 1) (List.range 127)]
    rw [List.take_range, Nat.min_eq_left (by omega), List.range_succ]
    simp
  have hfound := jy61p_scan_list_found responds A hresp (List.range A)
    (List.drop (A + 1) (List.range 127)) ctx.data_update_flags
    (fun a ha => hsilent a (by have := List.mem_range.mp ha; omega))
  have hscan : jy61p_sensor_scan responds ctx =
      (0, { ctx with data_update_flags := 0x81, sensor_found := true, sensor_addr := A },
        (List.range A).flatMap (scanBlock responds) ++ scanBlock responds A) := by
    rw [jy61p_sensor_scan, hdec, hfound]
  refine ⟨by rw [hscan], by rw [hscan], by rw [hscan], ?_, ?_⟩
  · rw [hscan]
    simp only [scanVisited_append, scanVisited_flatMap, scanVisited_block, List.range_succ]
  · intro b hb
    rw [hscan, scanProbes_append] at hb
    rcases List.mem_append.mp hb with h | h
    · have := List.mem_range.mp (scanProbes_flatMap_mem responds (List.range A) b h)
      omega
    · rw [scanProbes_block, if_pos hresp] at h
      simp at h
      omega

theorem jy61p_scan_finds_lowest_w :
    (jy61p_sensor_scan (fun a => a = 5) ctx0).1 = 0 ∧
    (jy61p_sensor_scan (fun a => a = 5) ctx0).2.1.sensor_found = true ∧
    (jy61p_sensor_scan (fun a => a = 5) ctx0).2.1.sensor_addr = 5 ∧
    scanVisited (jy61p_sensor_scan (fun a => a = 5) ctx0).2.2 = List.range 6 ∧
    (∀ b ∈ scanProbes (jy61p_sensor_scan (fun a => a = 5) ctx0).2.2, b ≤ 5) :=
  jy61p_scan_finds_lowest (fun a => a = 5) ctx0 5 (by omega) (by simp)
    (fun b hb => by simp [hb])

/-- C8: for any environment at all, the scan's event trace decomposes into
per-address blocks `WitInit a` followed by one or two groups
(flag-reset, probe read, 10 ms settling delay) — so the flag is reset to zero
immediately before every probe attempt, every probe is followed by one
settling delay, and each candidate address receives at most 2 probe
attempts; moreover an address is only ever accepted because it responded
itself (a stale flag from an earlier address can never cause acceptance). -/
theorem jy61p_scan_probe_discipline {α : Type} (responds : Nat → Bool) (ctx : Jy61pCtx α) :
    (∃ n, n ≤ 127 ∧ (jy61p_sensor_scan responds ctx).2.2 =
      (List.range n).flatMap (scanBlock responds)) ∧
    (∀ a, (scanProbes (jy61p_sensor_scan responds ctx).2.2).count a ≤ 2) ∧
    ((jy61p_sensor_scan responds ctx).1 = 0 →
      responds (jy61p_sensor_scan responds ctx).2.1.sensor_addr = true) := by
  by_cases hex : ∃ a, a ≤ 126 ∧ responds a = true
  case pos =>
    have hspec := Nat.find_spec hex
    set A := Nat.find hex with hAdef
    have hsil : ∀ a ∈ List.range A, responds a = false := by
      intro a ha
      have hlt := List.mem_range.mp ha
      by_cases hr : responds a = true
      · exact absurd ⟨by omega, hr⟩ (Nat.find_min hex hlt)
      · simpa using hr
    have hdec : List.range 127 = List.range A ++ A :: List.drop (A + 1) (List.range 127) := by
      conv_lhs => rw [← List.take_append_drop (A + 1) (List.range 127)]
      rw [List.take_range, Nat.min_eq_left (by omega), List.range_succ]
      simp
    have hfound := jy61p_scan_list_found responds A hspec.2 (List.range A)
      (List.drop (A + 1) (List.range 127)) ctx.data_update_flags hsil
    have hscan : jy61p_sensor_scan responds ctx =
        (0, { ctx with data_update_flags := 0x81, sensor_found := true, sensor_addr := A },
          (List.range A).flatMap (scanBlock responds) ++ scanBlock responds A) := by
      rw [jy61p_sensor_scan, hdec, hfound]
    have htr : (jy61p_sensor_scan responds ctx).2.2 =
        (List.range (A + 1)).flatMap (scanBlock responds) := by
      rw [hscan, List.range_succ, List.flatMap_append]
      simp
    refine ⟨⟨A + 1, by omega, htr⟩, ?_, ?_⟩
    · intro a
      rw [htr]
      exact scanProbes_count_le_two responds _ (List.nodup_range _) a
    · intro _
      rw [hscan]
      exact hspec.2
  case neg =>
    have hnone : ∀ a ∈ List.range 127, responds a = false := by
      intro a ha
      have := List.mem_range.mp ha
      by_cases hr : responds a = true
      · exact absurd ⟨by omega, hr⟩ (fun hc => hex ⟨a, hc⟩)
      · simpa using hr
    obtain ⟨f, hf⟩ := jy61p_scan_list_none responds (List.range 127) hnone
      ctx.data_update_flags
    have hscan : jy61p_sensor_scan responds ctx =
        (-1, { ctx with data_update_flags := f },
          (List.range 127).flatMap (scanBlock responds)) := by
      rw [jy61p_sensor_scan, hf]
    refine ⟨⟨127, le_refl _, by rw [hscan]⟩, ?_, ?_⟩
    · intro a
      rw [hscan]
      exact scanProbes_count_le_two responds _ (List.nodup_range _) a
    · intro h
      rw [hscan] at h
      simp at h

/-- C10: `jy61p_get_sensor_address` returns the 0xFF sentinel exactly when no
sensor has been found and the recorded address otherwise, and
`jy61p_get_sensor_data` returns -1 without writing the output structure when
the pointer is null or no sensor has been found. -/
theorem jy61p_getters_guard {α : Type} (ctx : Jy61pCtx α) :
    (ctx.sensor_found = false → jy61p_get_sensor_address ctx = 0xFF) ∧
    (ctx.sensor_found = true → jy61p_get_sensor_address ctx = ctx.sensor_addr) ∧
    (∀ p : Bool, p = false ∨ ctx.sensor_found = false →
      jy61p_get_sensor_data p ctx = (-1, none)) ∧
    (ctx.sensor_found = true →
      jy61p_get_sensor_data true ctx = (0, some ctx.sensor_data)) := by
  refine ⟨fun h => by simp [jy61p_get_sensor_address, h],
    fun h => by simp [jy61p_get_sensor_address, h], ?_,
    fun h => by simp [jy61p_get_sensor_data, h]⟩
  intro p hp
  rcases hp with h | h
  · subst h; simp [jy61p_get_sensor_data]
  · cases p <;> simp [jy61p_get_sensor_data, h]

theorem jy61p_getters_guard_w :
    jy61p_get_sensor_address ctx0 = 0xFF ∧
    jy61p_get_sensor_data false ctx0 = (-1, none) ∧
    jy61p_get_sensor_data true ctx0 = (-1, none) :=
  ⟨(jy61p_getters_guard ctx0).1 rfl,
   (jy61p_getters_guard ctx0).2.2.1 false (Or.inl rfl),
   (jy61p_getters_guard ctx0).2.2.1 true (Or.inr rfl)⟩
